import Mathlib

/-!
Verification development for the red-duck repository: a shallow embedding of
`src/red_duck/controllers.py` (class `DuckDBController`), a thin wrapper
around the DuckDB embedded database engine.

The wrapper's own control flow (branching, exception dispatch, string
construction, looping over files) is translated directly from the Python
source. The DuckDB engine itself is a third-party dependency whose code is
not part of the repository; its relevant behaviour (catalog state, create /
drop / insert / copy semantics, error classes) is modelled explicitly, with
each engine-side definition marked `Modelled from the spec:` in its doc
comment.
-/

deriving instance DecidableEq for Except

/-- Python's `str.upper()`, as used on the `format` argument of
`backup_database`: every character mapped to its upper-case form. (Defined
by a structural character map so concrete instances evaluate.) -/
def pyUpper (s : String) : String :=
  ⟨s.data.map Char.toUpper⟩

/-- Error classes raised by the modelled DuckDB engine, mirroring the
exception classes the Python wrapper dispatches on
(`duckdb.ConstraintException`, `duckdb.CatalogException`, parse errors and a
catch-all for anything else). -/
inductive DuckError where
  | constraintException
  | catalogException
  | parserException
  | otherException
deriving DecidableEq

/-- Python-level exceptions that can cross the wrapper's method boundaries:
an engine error, the `UnboundLocalError` a function raises when it reads a
local variable that was never assigned, and `FileNotFoundError` from
filesystem calls. -/
inductive PyExc where
  | duck (e : DuckError)
  | unboundLocalError
  | fileNotFoundError
deriving DecidableEq

/-- A database cell value. -/
inductive Value where
  | intV (n : Int)
  | strV (s : String)
  | nullV
deriving DecidableEq

/-- A record, as in `insert_data`: a Python dict from column name to value
(Python dicts preserve insertion order, so a list of pairs). -/
abbrev Record := List (String × Value)

/-- A table in the modelled engine catalog: declared columns with their type
text, the columns carrying a uniqueness constraint (parsed from a
`PRIMARY KEY` marker in the type text), and the stored rows. -/
structure Table where
  cols : List (String × String)
  unique : List String
  rows : List Record
deriving DecidableEq

/-- The engine catalog: association list from table name to table (first
match wins, as in a catalog with unique names). -/
abbrev DB := List (String × Table)

/-- Catalog lookup by table name (first matching entry). -/
def DB.findTable : DB → String → Option Table
  | [], _ => none
  | (m, tb) :: rest, n => if m = n then some tb else DB.findTable rest n

/-- Replace the first table entry with the given name, leaving the rest of
the catalog unchanged. -/
def DB.setTable : DB → String → Table → DB
  | [], _, _ => []
  | (m, tb) :: rest, n, tb' =>
      if m = n then (m, tb') :: rest else (m, tb) :: DB.setTable rest n tb'

/-- The controller's constructor state (`DuckDBController.__init__`):
`connection_str` is `none` for Python `None` and `some s` for a path string
(the default is `some ":memory:"`), plus the inert `read_only` flag. The
connection handle and logger carry no data relevant to the claims. -/
structure DuckDBController where
  connection_str : Option String
  read_only : Bool
deriving DecidableEq

/-- Observable effects the wrapper issues against the outside world: an
engine connection, a directory creation, or an engine call carrying the SQL
text. Used to state which calls a method does (or does not) issue. -/
inductive Effect where
  | connect (target : String) (readOnly : Option Bool)
  | mkdir (path : String)
  | engineCall (sql : String)
deriving DecidableEq

/-- Whether an effect is a directory creation. -/
def Effect.isMkdir : Effect → Bool
  | .mkdir _ => true
  | _ => false

/-! ## Connection lifecycle (`__enter__`, `__exit__`, `_create_connection`) -/

/-- `DuckDBController._create_connection`: if `connection_str is None`,
connect to `":memory:"` passing `read_only`; otherwise connect to the path
string directly (no other arguments, and no filesystem call of any kind
before the engine connect). The value is the list of effects the method
issues. -/
def DuckDBController.createConnection (c : DuckDBController) : List Effect :=
  match c.connection_str with
  | none => [.connect ":memory:" (some c.read_only)]
  | some p => [.connect p none]

/-- `DuckDBController.__enter__`: sets `self.connection` from
`_create_connection` and returns `self`; the effects issued are exactly
those of `_create_connection`. -/
def DuckDBController.enterScope (c : DuckDBController) : List Effect :=
  c.createConnection

/-- Result of `DuckDBController.__exit__`: whether the connection was
closed, which exception was logged, and the boolean the method returns to
the Python runtime (`True` suppresses an in-scope exception, `False` lets it
propagate). -/
structure ExitResult where
  closedConnection : Bool
  loggedError : Option PyExc
  suppress : Bool
deriving DecidableEq

/-- `DuckDBController.__exit__`: closes the connection when one is open;
then, if an exception value is present, logs it and returns `False`,
otherwise returns `True`. -/
def DuckDBController.exitScope (connOpen : Bool) (excVal : Option PyExc) :
    ExitResult :=
  { closedConnection := connOpen
  , loggedError := excVal
  , suppress := match excVal with
      | some _ => false
      | none => true }

/-- Python with-statement semantics around the controller: run the body,
call `__exit__` with the body's exception (if any); a body exception is
re-raised unless `__exit__` returned a truthy value, in which case the block
completes with no value. -/
def runScoped (connOpen : Bool) (body : Except PyExc α) :
    Except PyExc (Option α) × ExitResult :=
  match body with
  | .ok a => (.ok (some a), DuckDBController.exitScope connOpen none)
  | .error e =>
      let r := DuckDBController.exitScope connOpen (some e)
      (if r.suppress then .ok none else .error e, r)

/-! ## Catalog operations (`check_table_exists`, `create_table`,
`drop_table`) -/

/-- Whether a declared column type text carries a `PRIMARY KEY` marker (as
in the source's example mapping `id ↦ INTEGER PRIMARY KEY`), which the
engine turns into a uniqueness constraint. -/
def declaresPrimaryKey (dtype : String) : Bool :=
  (dtype.splitOn "PRIMARY KEY").length != 1

/-- Modelled from the spec: the engine's `CREATE TABLE IF NOT EXISTS`
statement — a no-op when the name is already in the catalog, otherwise it
adds an empty table with the declared columns, the `PRIMARY KEY` columns
becoming unique columns. -/
def engineCreateIfNotExists (db : DB) (n : String)
    (columns : List (String × String)) : DB :=
  if (DB.findTable db n).isSome then db
  else (n, { cols := columns
           , unique := (columns.filter fun p => declaresPrimaryKey p.2).map Prod.fst
           , rows := [] }) :: db

/-- Modelled from the spec: the engine's `DROP TABLE IF EXISTS` statement —
removes the entry with the given name from the catalog, a no-op when the
name is absent. -/
def engineDropIfExists : DB → String → DB
  | [], _ => []
  | (m, tb) :: rest, n =>
      if m = n then engineDropIfExists rest n
      else (m, tb) :: engineDropIfExists rest n

/-- `DuckDBController.check_table_exists`: parameterized catalog query
`SELECT 1 FROM information_schema.tables ... AND table_name = ?`,
`fetchone` — true exactly when a row comes back, i.e. when the name is in
the catalog. -/
def DuckDBController.check_table_exists (db : DB) (table_name : String) : Bool :=
  (DB.findTable db table_name).isSome

/-- `DuckDBController.create_table`: builds
`CREATE TABLE IF NOT EXISTS name (col type, ...)` from the mapping's
iteration order and executes it; the try block only logs and re-raises, and
the modelled conditional create has no failure mode, so the method is the
engine conditional create. -/
def DuckDBController.create_table (db : DB) (table_name : String)
    (columns : List (String × String)) : DB :=
  engineCreateIfNotExists db table_name columns

/-- `DuckDBController.drop_table`: executes `DROP TABLE IF EXISTS name`;
the try block only logs and re-raises, and the modelled conditional drop has
no failure mode, so the method is the engine conditional drop. -/
def DuckDBController.drop_table (db : DB) (table_name : String) : DB :=
  engineDropIfExists db table_name

/-! ## Row operations (`insert_data`, `count_rows`) -/

/-- Whether appending the new rows to the table breaks a uniqueness
constraint: some unique column ends up with a duplicated value among the old
and new rows together. -/
def violatesUnique (tb : Table) (newRows : List Record) : Bool :=
  tb.unique.any fun u =>
    let vals := (tb.rows ++ newRows).filterMap fun r => r.lookup u
    vals.dedup.length != vals.length

/-- Modelled from the spec: `connection.executemany` for the built INSERT
statement. A missing table is a catalog error; a batch that breaks a
uniqueness constraint raises the constraint-violation error class and, per
the spec's property that a failed insert leaves the row count unchanged,
changes nothing; otherwise all rows are appended. -/
def executemanyInsert (db : DB) (table_name : String) (values : List Record) :
    Except DuckError DB :=
  match DB.findTable db table_name with
  | none => .error .catalogException
  | some tb =>
      if violatesUnique tb values then .error .constraintException
      else .ok (DB.setTable db table_name
        { cols := tb.cols, unique := tb.unique, rows := tb.rows ++ values })

/-- Outcome of `DuckDBController.insert_data`: the engine state afterwards,
the Python-level result (`.ok none` for a plain `return`/`None`,
`.ok (some false)` for the `return False` sentinel, `.error e` for a
re-raised exception), and the engine calls issued. -/
structure InsertOutcome where
  db : DB
  result : Except DuckError (Option Bool)
  calls : List Effect

/-- `DuckDBController.insert_data`: `if not data: return` (no engine call
for a `None` or empty batch); otherwise the column list and placeholder
count come from the first record's keys, and `executemany` runs. A
`duckdb.ConstraintException` is caught, logged, and turned into `return
False`; any other exception is logged and re-raised. -/
def DuckDBController.insert_data (db : DB) (table_name : String)
    (data : Option (List Record)) : InsertOutcome :=
  match data with
  | none => ⟨db, .ok none, []⟩
  | some [] => ⟨db, .ok none, []⟩
  | some (r0 :: rest) =>
      let columns := ", ".intercalate (r0.map Prod.fst)
      let placeholders := ", ".intercalate (r0.map fun _ => "?")
      let query := "INSERT INTO " ++ table_name ++ " (" ++ columns
        ++ ") VALUES (" ++ placeholders ++ ")"
      match executemanyInsert db table_name (r0 :: rest) with
      | .ok db' => ⟨db', .ok none, [.engineCall query]⟩
      | .error .constraintException => ⟨db, .ok (some false), [.engineCall query]⟩
      | .error e => ⟨db, .error e, [.engineCall query]⟩

/-- `DuckDBController.count_rows`: `SELECT COUNT(*) FROM name`, `fetchone`,
then `result[0] if result else 0`. On the modelled engine the aggregate
returns the table's row count; a missing table raises a catalog error from
the engine, which the method (having no try block) propagates. -/
def DuckDBController.count_rows (db : DB) (table_name : String) :
    Except DuckError Nat :=
  match DB.findTable db table_name with
  | none => .error .catalogException
  | some tb => .ok tb.rows.length

/-! ## Ad-hoc queries (`query`) -/

/-- Raw SQL text handed to `DuckDBController.query`, structured by how the
engine reacts: a well-formed select against a named table, or text the
engine cannot parse. -/
inductive RawSql where
  | selectAllFrom (table_name : String)
  | malformed (text : String)
deriving DecidableEq

/-- Modelled from the spec: engine execution of raw SQL via
`connection.execute(...).fetchall()` — a select returns the table's rows,
a select against an unknown name raises the catalog error class, and
unparseable text raises a parse error. -/
def engineExecRaw (db : DB) (q : RawSql) : Except DuckError (List Record) :=
  match q with
  | .selectAllFrom t =>
      match DB.findTable db t with
      | some tb => .ok tb.rows
      | none => .error .catalogException
  | .malformed _ => .error .parserException

/-- `DuckDBController.query`: executes the raw SQL and returns all rows; a
`duckdb.CatalogException` is caught, logged, and turned into `return None`;
any other exception is logged and re-raised. -/
def DuckDBController.query (db : DB) (q : RawSql) :
    Except DuckError (Option (List Record)) :=
  match engineExecRaw db q with
  | .ok r => .ok (some r)
  | .error .catalogException => .ok none
  | .error e => .error e

/-! ## Bulk import (`import_from_parquet`, `create_table_from_csv`,
`import_from_csv`) -/

/-- Contents of an external data file (Parquet or CSV): the column names
with their file-declared types, and the data rows (for CSV, the rows below
the header line, keyed by the header's column names). -/
structure FileData where
  cols : List (String × String)
  rows : List Record
deriving DecidableEq

/-- The table a `CREATE TABLE ... AS SELECT * FROM read_parquet(file)`
produces: the file's columns and rows, no constraints. -/
def fileTable (fd : FileData) : Table :=
  { cols := fd.cols, unique := [], rows := fd.rows }

/-- Modelled from the spec: the engine's plain (unconditional)
`CREATE TABLE name AS SELECT * FROM read_parquet(file)` — a catalog error
when the name already exists, otherwise a new table holding a full copy of
the file. -/
def engineCreateTableAs (db : DB) (n : String) (fd : FileData) :
    Except DuckError DB :=
  if (DB.findTable db n).isSome then .error .catalogException
  else .ok ((n, fileTable fd) :: db)

/-- `DuckDBController.import_from_parquet`: loops over the files (a single
path having been wrapped into a one-element list), executing for each one a
plain `CREATE TABLE name AS SELECT * FROM read_parquet(file)` with no
try/except — an engine error stops the loop and propagates, with the state
reached so far kept. The `pq` parameter maps each path to its file's
contents. -/
def DuckDBController.import_from_parquet (db : DB) (table_name : String)
    (parquet_files : List String) (pq : String → FileData) :
    DB × Option DuckError :=
  match parquet_files with
  | [] => (db, none)
  | f :: rest =>
      match engineCreateTableAs db table_name (pq f) with
      | .error e => (db, some e)
      | .ok db' => DuckDBController.import_from_parquet db' table_name rest pq

/-- Modelled from the spec: the engine's plain (unconditional)
`CREATE TABLE name (col type, ...)` — a catalog error when the name already
exists, otherwise a new empty table with the declared columns. -/
def engineCreateTablePlain (db : DB) (n : String)
    (columns : List (String × String)) : Except DuckError DB :=
  if (DB.findTable db n).isSome then .error .catalogException
  else .ok ((n, { cols := columns
                , unique := (columns.filter fun p => declaresPrimaryKey p.2).map Prod.fst
                , rows := [] }) :: db)

/-- `DuckDBController.create_table_from_csv`: reads only the header of the
file (`pd.read_csv(csv_file, nrows=0)`), types every column `VARCHAR`, and
executes a plain `CREATE TABLE name (schema)`; returns the schema text. -/
def DuckDBController.create_table_from_csv (db : DB) (table_name : String)
    (csv_file : String) (csv : String → FileData) :
    Except DuckError DB × String :=
  let hdr := (csv csv_file).cols.map Prod.fst
  let schema := ", ".intercalate (hdr.map fun col => col ++ " VARCHAR")
  (engineCreateTablePlain db table_name (hdr.map fun col => (col, "VARCHAR")), schema)

/-- Modelled from the spec: the engine's
`COPY name FROM file WITH (FORMAT CSV, HEADER)` — a catalog error when the
table is missing, otherwise the file's data rows (header consumed) are
appended to the table. -/
def engineCopyCsv (db : DB) (n : String) (fd : FileData) :
    Except DuckError DB :=
  match DB.findTable db n with
  | none => .error .catalogException
  | some tb =>
      .ok (DB.setTable db n
        { cols := tb.cols, unique := tb.unique, rows := tb.rows ++ fd.rows })

/-- The per-file loop of `import_from_csv`: each file is loaded by a COPY
statement whose try block only logs and re-raises, so an engine error stops
the loop and propagates with the state reached so far kept. -/
def copyCsvLoop (db : DB) (table_name : String) (files : List String)
    (csv : String → FileData) : DB × Option DuckError :=
  match files with
  | [] => (db, none)
  | f :: rest =>
      match engineCopyCsv db table_name (csv f) with
      | .error e => (db, some e)
      | .ok db' => copyCsvLoop db' table_name rest csv

/-- `DuckDBController.import_from_csv`: a single path is wrapped into a
one-element list; when the list is non-empty, `create_table_from_csv` runs
on the first file (its error, having no handler here, propagates), then
every file in the list is loaded by the COPY loop. -/
def DuckDBController.import_from_csv (db : DB) (table_name : String)
    (csv_files : List String) (csv : String → FileData) :
    DB × Option DuckError :=
  match csv_files with
  | [] => (db, none)
  | f0 :: rest =>
      match (DuckDBController.create_table_from_csv db table_name f0 csv).1 with
      | .error e => (db, some e)
      | .ok db1 => copyCsvLoop db1 table_name (f0 :: rest) csv

/-! ## Maintenance (`database_file_size`) and backup (`backup_database`) -/

/-- `DuckDBController.database_file_size`: `if self.connection_str is None`
warn and return `None`; otherwise `os.path.getsize(self.connection_str)`,
which raises `FileNotFoundError` when no such file exists. The `fs`
parameter maps an existing path to its byte size. The boolean records
whether the in-memory warning was logged. -/
def DuckDBController.database_file_size (connection_str : Option String)
    (fs : String → Option Nat) : Except PyExc (Option Nat) × Bool :=
  match connection_str with
  | none => (.ok none, true)
  | some p =>
      match fs p with
      | some sz => (.ok (some sz), false)
      | none => (.error .fileNotFoundError, false)

/-- `DuckDBController.backup_database`: `query` is assigned only in the two
recognized `format.upper()` branches; the try block then evaluates
`self.connection.execute(query)` — when no branch ran, reading the unbound
local `query` raises `UnboundLocalError` before any engine call is issued
(the catch-all except logs and re-raises it). On the recognized branches the
modelled engine export succeeds and the method returns `True`. -/
def DuckDBController.backup_database (format : String) (backup_dir : String)
    (csv_delimiter : String) (parquet_compression : String)
    (parquet_row_group_size : Nat) : Except PyExc Bool × List Effect :=
  let query : Option String :=
    if pyUpper format = "CSV" then
      some ("EXPORT DATABASE '" ++ backup_dir ++ "' (FORMAT CSV, DELIMITER '"
        ++ csv_delimiter ++ "');")
    else if pyUpper format = "PARQUET" then
      some ("EXPORT DATABASE '" ++ backup_dir ++ "' (FORMAT PARQUET, COMPRESSION "
        ++ parquet_compression ++ ", ROW_GROUP_SIZE "
        ++ toString parquet_row_group_size ++ ")")
    else none
  match query with
  | none => (.error .unboundLocalError, [])
  | some q => (.ok true, [.engineCall q])

/-! ## Concrete fixtures used by witnesses and counterexamples -/

/-- A users-style table with a `PRIMARY KEY` uniqueness constraint on `id`
and one stored row. -/
def usersTable : Table :=
  { cols := [("id", "INTEGER PRIMARY KEY"), ("name", "VARCHAR")]
  , unique := ["id"]
  , rows := [[("id", .intV 1), ("name", .strV "A")]] }

/-- A catalog holding only `usersTable` under the name `t`. -/
def usersDB : DB := [("t", usersTable)]

/-- A record whose `id` duplicates the row already stored in `usersTable`. -/
def dupRecord : Record := [("id", .intV 1), ("name", .strV "B")]

/-- A constraint-free table with one stored row, for the insert-count
witness. -/
def plainTable : Table :=
  { cols := [("id", "INTEGER"), ("name", "VARCHAR")]
  , unique := []
  , rows := [[("id", .intV 1), ("name", .strV "A")]] }

/-- A catalog holding only `plainTable` under the name `t`. -/
def plainDB : DB := [("t", plainTable)]

/-- First fresh record of the insert-count witness batch. -/
def rec2 : Record := [("id", .intV 2), ("name", .strV "B")]

/-- Second fresh record of the insert-count witness batch. -/
def rec3 : Record := [("id", .intV 3), ("name", .strV "C")]

/-- Contents of the first Parquet fixture file. -/
def parquetA : FileData :=
  { cols := [("x", "INTEGER")], rows := [[("x", .intV 1)]] }

/-- Contents of the second Parquet fixture file, with a different schema and
different rows from the first. -/
def parquetB : FileData :=
  { cols := [("y", "VARCHAR")], rows := [[("y", .strV "b")]] }

/-- The fixture Parquet directory: `a.parquet` holds `parquetA`, every other
path holds `parquetB`. -/
def pqFiles : String → FileData :=
  fun p => if p = "a.parquet" then parquetA else parquetB

/-- Contents of the fixture CSV file `a.csv`: two text columns and one data
row under the header. -/
def csvA : FileData :=
  { cols := [("c1", ""), ("c2", "")]
  , rows := [[("c1", .strV "v1"), ("c2", .strV "v2")]] }

/-- The fixture CSV directory: every path holds `csvA`. -/
def csvFilesFix : String → FileData := fun _ => csvA

/-- A filesystem with no files at all. -/
def emptyFs : String → Option Nat := fun _ => none

/-- A filesystem holding a single database file of 4096 bytes. -/
def oneFileFs : String → Option Nat :=
  fun p => if p = "data/app.duckdb" then some 4096 else none

/-- A controller constructed with the file-backed target
`data/app.duckdb`, whose parent directory does not exist in the failing
scenario. -/
def fileBackedCtl : DuckDBController :=
  { connection_str := some "data/app.duckdb", read_only := false }

/-! ## Helper lemmas on the catalog -/

/-- Looking up a name right after it was consed onto the catalog finds the
new table. -/
theorem findTable_cons_self (db : DB) (n : String) (tb : Table) :
    DB.findTable ((n, tb) :: db) n = some tb := by
  simp [DB.findTable]

/-- After dropping a name, looking it up finds nothing. -/
theorem findTable_engineDropIfExists_self (db : DB) (n : String) :
    DB.findTable (engineDropIfExists db n) n = none := by
  induction db with
  | nil => simp [engineDropIfExists, DB.findTable]
  | cons p rest ih =>
      obtain ⟨m, tb⟩ := p
      by_cases h : m = n
      · simpa [engineDropIfExists, h] using ih
      · simp [engineDropIfExists, h, DB.findTable, ih]

/-- Dropping a name absent from the catalog changes nothing. -/
theorem engineDropIfExists_of_absent (db : DB) (n : String)
    (h : DB.findTable db n = none) : engineDropIfExists db n = db := by
  induction db with
  | nil => rfl
  | cons p rest ih =>
      obtain ⟨m, tb⟩ := p
      by_cases hm : m = n
      · subst hm
        simp [DB.findTable] at h
      · have hr : DB.findTable rest n = none := by
          simpa [DB.findTable, hm] using h
        simp [engineDropIfExists, hm, ih hr]

/-- Replacing a present table makes lookup return the replacement. -/
theorem findTable_setTable_self (db : DB) (n : String) (tb tb' : Table)
    (h : DB.findTable db n = some tb) :
    DB.findTable (DB.setTable db n tb') n = some tb' := by
  induction db with
  | nil => simp [DB.findTable] at h
  | cons p rest ih =>
      obtain ⟨m, t⟩ := p
      by_cases hm : m = n
      · subst hm
        simp [DB.setTable, DB.findTable]
      · have hr : DB.findTable rest n = some tb := by
          simpa [DB.findTable, hm] using h
        simp [DB.setTable, hm, DB.findTable, ih hr]

/-! ## Claim theorems -/

/-- C1, counterexample: at the concrete in-scope exception
`PyExc.duck .otherException` with an open connection, `__exit__` returns
`False` (it does not report success), and the with-block re-raises the
exception rather than swallowing it. -/
theorem C1_exit_swallows_counterexample :
    (DuckDBController.exitScope true (some (PyExc.duck .otherException))).suppress
        = false
      ∧ (runScoped true (Except.error (PyExc.duck .otherException) :
            Except PyExc Unit)).fst
          = Except.error (PyExc.duck .otherException) := by
  constructor
  · rfl
  · rfl

/-- C1, amended: for every exception raised inside the scoped block with an
open connection, `__exit__` closes the connection and logs the exception,
but returns `False`, so the exception propagates out of the with-block. -/
theorem C1_exit_closes_logs_and_propagates (e : PyExc) :
    (DuckDBController.exitScope true (some e)).closedConnection = true
      ∧ (DuckDBController.exitScope true (some e)).loggedError = some e
      ∧ (DuckDBController.exitScope true (some e)).suppress = false
      ∧ (runScoped true (Except.error e : Except PyExc Unit)).fst
          = Except.error e := by
  refine ⟨rfl, rfl, rfl, ?_⟩
  simp [runScoped, DuckDBController.exitScope]

/-- C8: for every catalog, table name and column mapping, `create_table`
followed by `check_table_exists` yields true and `drop_table` followed by
`check_table_exists` yields false; `create_table` is a no-op when the table
already exists and `drop_table` is a no-op when it is absent, by the
conditional IF NOT EXISTS / IF EXISTS statements. -/
theorem C8_create_drop_exists (db : DB) (n : String)
    (columns : List (String × String)) :
    DuckDBController.check_table_exists
        (DuckDBController.create_table db n columns) n = true
  ∧ DuckDBController.check_table_exists (DuckDBController.drop_table db n) n
        = false
  ∧ (DuckDBController.check_table_exists db n = true →
      DuckDBController.create_table db n columns = db)
  ∧ (DuckDBController.check_table_exists db n = false →
      DuckDBController.drop_table db n = db) := by
  refine ⟨?_, ?_, ?_, ?_⟩
  · by_cases h : (DB.findTable db n).isSome
    · simp [DuckDBController.check_table_exists, DuckDBController.create_table,
        engineCreateIfNotExists, h]
    · simp [DuckDBController.check_table_exists, DuckDBController.create_table,
        engineCreateIfNotExists, h, DB.findTable]
  · simp [DuckDBController.check_table_exists, DuckDBController.drop_table,
      findTable_engineDropIfExists_self]
  · intro h
    simp [DuckDBController.check_table_exists] at h
    simp [DuckDBController.create_table, engineCreateIfNotExists, h]
  · intro h
    have h' : DB.findTable db n = none := by
      cases hf : DB.findTable db n with
      | none => rfl
      | some tb => simp [DuckDBController.check_table_exists, hf] at h
    simpa [DuckDBController.drop_table] using engineDropIfExists_of_absent db n h'

/-- Witness for C8 at concrete inputs: creating `t` in an empty catalog
makes it exist, creating it again over `usersDB` (where `t` exists) changes
nothing, and dropping `t` from an empty catalog changes nothing. -/
theorem C8_create_drop_exists_witness :
    DuckDBController.check_table_exists
        (DuckDBController.create_table [] "t" [("id", "INTEGER PRIMARY KEY")]) "t"
        = true
  ∧ DuckDBController.create_table usersDB "t" [("id", "INTEGER PRIMARY KEY")]
        = usersDB
  ∧ DuckDBController.drop_table [] "t" = [] := by
  exact ⟨(C8_create_drop_exists [] "t" [("id", "INTEGER PRIMARY KEY")]).1,
    (C8_create_drop_exists usersDB "t" [("id", "INTEGER PRIMARY KEY")]).2.2.1
      (by decide),
    (C8_create_drop_exists [] "t" [("id", "INTEGER PRIMARY KEY")]).2.2.2
      (by decide)⟩

/-- C2: inserting a batch that breaks a uniqueness constraint on an existing
table makes `insert_data` catch the constraint-violation error class and
return the `False` sentinel, with the state and hence the `count_rows`
result unchanged from before the attempt; every other engine error during
the insert is re-raised unchanged. -/
theorem C2_insert_constraint_dispatch (db : DB) (table_name : String)
    (tb : Table) (r0 : Record) (rest : List Record) :
    (DB.findTable db table_name = some tb →
      violatesUnique tb (r0 :: rest) = true →
        (DuckDBController.insert_data db table_name (some (r0 :: rest))).result
            = .ok (some false)
      ∧ (DuckDBController.insert_data db table_name (some (r0 :: rest))).db = db
      ∧ DuckDBController.count_rows
            (DuckDBController.insert_data db table_name (some (r0 :: rest))).db
            table_name
          = DuckDBController.count_rows db table_name)
  ∧ (∀ e, e ≠ DuckError.constraintException →
      executemanyInsert db table_name (r0 :: rest) = .error e →
      (DuckDBController.insert_data db table_name (some (r0 :: rest))).result
        = .error e) := by
  constructor
  · intro hf hv
    have hx : executemanyInsert db table_name (r0 :: rest)
        = .error .constraintException := by
      simp [executemanyInsert, hf, hv]
    have hdb : (DuckDBController.insert_data db table_name
        (some (r0 :: rest))).db = db := by
      simp [DuckDBController.insert_data, hx]
    refine ⟨?_, hdb, ?_⟩
    · simp [DuckDBController.insert_data, hx]
    · rw [hdb]
  · intro e he hx
    cases e with
    | constraintException => exact absurd rfl he
    | catalogException => simp [DuckDBController.insert_data, hx]
    | parserException => simp [DuckDBController.insert_data, hx]
    | otherException => simp [DuckDBController.insert_data, hx]

/-- Witness for C2 at concrete inputs: inserting a record duplicating the
primary key already stored in `usersDB` returns the `False` sentinel and
leaves the row count unchanged, while inserting into a missing table
re-raises the catalog error. -/
theorem C2_insert_constraint_witness :
    (DuckDBController.insert_data usersDB "t" (some [dupRecord])).result
        = .ok (some false)
  ∧ DuckDBController.count_rows
        (DuckDBController.insert_data usersDB "t" (some [dupRecord])).db "t"
      = DuckDBController.count_rows usersDB "t"
  ∧ (DuckDBController.insert_data [] "missing" (some [dupRecord])).result
      = .error .catalogException := by
  exact ⟨((C2_insert_constraint_dispatch usersDB "t" usersTable dupRecord []).1
      (by decide) (by decide)).1,
    ((C2_insert_constraint_dispatch usersDB "t" usersTable dupRecord []).1
      (by decide) (by decide)).2.2,
    (C2_insert_constraint_dispatch [] "missing" usersTable dupRecord []).2
      .catalogException (by decide) rfl⟩

/-- C9: a successful insert of a non-empty batch into an existing table
returns `None` and makes `count_rows` report the previous count plus the
batch size; a `None` or empty batch is a no-op that issues no engine
call. -/
theorem C9_insert_then_count (db : DB) (table_name : String) (r0 : Record)
    (rest : List Record) (db' : DB) (n : Nat) :
    (executemanyInsert db table_name (r0 :: rest) = .ok db' →
      DuckDBController.count_rows db table_name = .ok n →
        (DuckDBController.insert_data db table_name (some (r0 :: rest))).result
            = .ok none
      ∧ (DuckDBController.insert_data db table_name (some (r0 :: rest))).db = db'
      ∧ DuckDBController.count_rows
            (DuckDBController.insert_data db table_name (some (r0 :: rest))).db
            table_name
          = .ok (n + (r0 :: rest).length))
  ∧ (DuckDBController.insert_data db table_name none).db = db
  ∧ (DuckDBController.insert_data db table_name none).calls = []
  ∧ (DuckDBController.insert_data db table_name (some [])).db = db
  ∧ (DuckDBController.insert_data db table_name (some [])).calls = [] := by
  refine ⟨?_, rfl, rfl, rfl, rfl⟩
  intro hok hcount
  cases hf : DB.findTable db table_name with
  | none => simp [executemanyInsert, hf] at hok
  | some tb =>
      cases hvb : violatesUnique tb (r0 :: rest) with
      | true => simp [executemanyInsert, hf, hvb] at hok
      | false =>
          have hdb' : db' = DB.setTable db table_name
              { cols := tb.cols, unique := tb.unique
              , rows := tb.rows ++ (r0 :: rest) } := by
            have := hok
            simp [executemanyInsert, hf, hvb] at this
            exact this.symm
          have hn : tb.rows.length = n := by
            simpa [DuckDBController.count_rows, hf] using hcount
          have hx : executemanyInsert db table_name (r0 :: rest) = .ok db' := hok
          have hdb : (DuckDBController.insert_data db table_name
              (some (r0 :: rest))).db = db' := by
            simp [DuckDBController.insert_data, hx]
          refine ⟨?_, hdb, ?_⟩
          · simp [DuckDBController.insert_data, hx]
          · rw [hdb, hdb']
            have hfind := findTable_setTable_self db table_name tb
              { cols := tb.cols, unique := tb.unique
              , rows := tb.rows ++ (r0 :: rest) } hf
            simp [DuckDBController.count_rows, hfind, hn.symm]

/-- Witness for C9 at concrete inputs: inserting two fresh records into
`plainDB` (one stored row) makes `count_rows` report 3, and `None` and
empty batches leave the state unchanged with no engine call. -/
theorem C9_insert_then_count_witness :
    (DuckDBController.insert_data plainDB "t" (some [rec2, rec3])).result
        = .ok none
  ∧ DuckDBController.count_rows
        (DuckDBController.insert_data plainDB "t" (some [rec2, rec3])).db "t"
      = .ok 3
  ∧ (DuckDBController.insert_data plainDB "t" none).calls = []
  ∧ (DuckDBController.insert_data plainDB "t" (some [])).calls = [] := by
  have h := C9_insert_then_count plainDB "t" rec2 [rec3]
    (DB.setTable plainDB "t"
      { cols := plainTable.cols, unique := plainTable.unique
      , rows := plainTable.rows ++ [rec2, rec3] }) 1
  exact ⟨(h.1 rfl rfl).1, (h.1 rfl rfl).2.2, h.2.2.1, h.2.2.2.2⟩

/-- C3: `query` turns the engine's catalog error class (raised e.g. for a
select against a nonexistent table) into a `None` result, and re-raises
every other engine error unchanged (e.g. the parse error for malformed
SQL). -/
theorem C3_query_dispatch (db : DB) (q : RawSql) :
    (∀ t, q = .selectAllFrom t → DB.findTable db t = none →
        DuckDBController.query db q = .ok none)
  ∧ (∀ s, q = .malformed s →
        DuckDBController.query db q = .error .parserException)
  ∧ (engineExecRaw db q = .error .catalogException →
        DuckDBController.query db q = .ok none)
  ∧ (∀ e, e ≠ DuckError.catalogException → engineExecRaw db q = .error e →
        DuckDBController.query db q = .error e) := by
  refine ⟨?_, ?_, ?_, ?_⟩
  · intro t hq hf
    subst hq
    simp [DuckDBController.query, engineExecRaw, hf]
  · intro s hq
    subst hq
    simp [DuckDBController.query, engineExecRaw]
  · intro hx
    simp [DuckDBController.query, hx]
  · intro e he hx
    cases e with
    | constraintException => simp [DuckDBController.query, hx]
    | catalogException => exact absurd rfl he
    | parserException => simp [DuckDBController.query, hx]
    | otherException => simp [DuckDBController.query, hx]

/-- Witness for C3 at concrete inputs: a select against a table missing
from the empty catalog returns `None`, and malformed SQL raises the parse
error. -/
theorem C3_query_witness :
    DuckDBController.query [] (.selectAllFrom "missing") = .ok none
  ∧ DuckDBController.query [] (.malformed "SELEC * FRM t")
      = .error .parserException := by
  exact ⟨(C3_query_dispatch [] (.selectAllFrom "missing")).1 "missing" rfl rfl,
    (C3_query_dispatch [] (.malformed "SELEC * FRM t")).2.1 "SELEC * FRM t" rfl⟩

/-- C4, counterexample: importing the two fixture Parquet files into the
fresh table name `t` does not complete and does not leave the last file's
contents — the second plain `CREATE TABLE` raises the catalog error and the
table keeps the first file's contents, which differ from the second
file's. -/
theorem C4_parquet_last_wins_counterexample :
    DuckDBController.import_from_parquet [] "t" ["a.parquet", "b.parquet"]
        pqFiles
      = ([("t", fileTable parquetA)], some .catalogException)
  ∧ fileTable parquetA ≠ fileTable parquetB := by
  exact ⟨by decide, by decide⟩

/-- C4, amended: each Parquet file triggers a plain, non-replacing
`CREATE TABLE name AS SELECT * FROM read_parquet(file)`; importing a single
file to a fresh table name succeeds with exactly that file's contents, while
a list of two or more files makes the second create raise the engine's
catalog error, leaving the table holding the first file's contents. -/
theorem C4_parquet_plain_create (db : DB) (table_name : String)
    (f f2 : String) (rest : List String) (pq : String → FileData) :
    DB.findTable db table_name = none →
      DuckDBController.import_from_parquet db table_name [f] pq
          = ((table_name, fileTable (pq f)) :: db, none)
    ∧ DuckDBController.import_from_parquet db table_name (f :: f2 :: rest) pq
        = ((table_name, fileTable (pq f)) :: db, some .catalogException) := by
  intro hf
  constructor
  · simp [DuckDBController.import_from_parquet, engineCreateTableAs, hf]
  · simp [DuckDBController.import_from_parquet, engineCreateTableAs, hf,
      DB.findTable]

/-- Witness for the amended C4 at concrete inputs: one fixture file imports
cleanly into a fresh name; adding a second file raises and keeps the first
file's table. -/
theorem C4_parquet_plain_create_witness :
    DuckDBController.import_from_parquet [] "t" ["a.parquet"] pqFiles
        = ([("t", fileTable parquetA)], none)
  ∧ DuckDBController.import_from_parquet [] "t" ["a.parquet", "b.parquet"]
        pqFiles
      = ([("t", fileTable parquetA)], some .catalogException) := by
  have h := C4_parquet_plain_create [] "t" "a.parquet" "b.parquet" [] pqFiles rfl
  exact ⟨h.1, h.2⟩

/-- C5, at the failing input: with table `t` already in the catalog,
importing a CSV file into `t` issues a plain `CREATE TABLE` from the first
file's header, which raises the engine's catalog error and loads nothing —
instead of creating only if needed and appending. -/
theorem C5_csv_import_existing_table_raises :
    DuckDBController.import_from_csv usersDB "t" ["a.csv"] csvFilesFix
        = (usersDB, some .catalogException)
  ∧ (DuckDBController.create_table_from_csv usersDB "t" "a.csv" csvFilesFix).1
      = .error .catalogException := by
  exact ⟨by decide, by decide⟩

/-- C6, at the failing input: with the constructor default `":memory:"` as
target and no such file on disk, `database_file_size` falls through the
`None`-only guard into `os.path.getsize(":memory:")` and raises
`FileNotFoundError` with no warning; only a `None` target returns the null
result with the in-memory warning, and a file-backed target returns its
byte size. -/
theorem C6_file_size_memory_sentinel_raises :
    DuckDBController.database_file_size (some ":memory:") emptyFs
        = (.error .fileNotFoundError, false)
  ∧ DuckDBController.database_file_size none emptyFs = (.ok none, true)
  ∧ DuckDBController.database_file_size (some "data/app.duckdb") oneFileFs
      = (.ok (some 4096), false) := by
  exact ⟨rfl, rfl, by decide⟩

/-- C7, at the failing input: for the file-backed target `data/app.duckdb`
(whose parent directory is missing in the failing scenario), scoped entry
issues exactly one engine connect on the raw path and no directory-creation
call at all. -/
theorem C7_enter_creates_no_directories :
    DuckDBController.enterScope fileBackedCtl
        = [Effect.connect "data/app.duckdb" none]
  ∧ (DuckDBController.enterScope fileBackedCtl).all
        (fun e => !(Effect.isMkdir e)) = true := by
  exact ⟨rfl, rfl⟩

/-- C10: for every format argument whose upper-cased value is neither "CSV"
nor "PARQUET", `backup_database` raises `UnboundLocalError` — the local
`query` is assigned only in the two recognized branches and is read by the
execute call — before issuing any engine call. -/
theorem C10_backup_unrecognized_format (format : String) (backup_dir : String)
    (csv_delimiter : String) (parquet_compression : String)
    (parquet_row_group_size : Nat) :
    pyUpper format ≠ "CSV" → pyUpper format ≠ "PARQUET" →
    DuckDBController.backup_database format backup_dir csv_delimiter
        parquet_compression parquet_row_group_size
      = (.error .unboundLocalError, []) := by
  intro h1 h2
  simp [DuckDBController.backup_database, h1, h2]

/-- Witness for C10 at a concrete input: the unrecognized format `"json"`
makes `backup_database` raise `UnboundLocalError` with no engine call. -/
theorem C10_backup_unrecognized_format_witness :
    DuckDBController.backup_database "json" "backup" "," "ZSTD" 100000
      = (.error .unboundLocalError, []) := by
  exact C10_backup_unrecognized_format "json" "backup" "," "ZSTD" 100000
    (by decide) (by decide)
